import Mathlib

/-!
Verification development for the TokenRouter reverse proxy
(`app/core/auth.py`, `app/core/config.py`, `app/services/proxy.py`,
`app/services/usage.py`, `app/api/proxy.py`).

Conventions of the shallow embedding:
* machine time (`datetime`) is modelled as integer seconds;
* a raised `HTTPException(status_code, detail)` is an `HTTPError` value,
  and fallible operations return `Except HTTPError _`;
* the SQLAlchemy rows `Team` and `RequestLog` are plain structures; the
  `timestamp`, `request_payload` and `response_payload` columns of
  `request_logs` (wall-clock and JSON-dump snapshots) are not modelled —
  no claim refers to them;
* JSON values carry integer numerics (the token-count fields the code
  reads are integers in the provider contract).
-/

namespace TokenRouter

/-- Team row of `app/models/database.py` (columns the core pipeline reads). -/
structure Team where
  id : Nat
  name : String
  token : String
  quota_tokens : Int
  used_tokens : Int
  max_requests_per_minute : Nat
  is_active : Bool
deriving Repr, DecidableEq

/-- RequestLog row of `app/models/database.py` as written by
`log_request` in `app/services/usage.py` (payload/timestamp columns omitted,
see module docstring). -/
structure RequestLog where
  team_id : Nat
  model : String
  input_tokens : Int
  output_tokens : Int
  total_tokens : Int
  status : String
  error_message : Option String
deriving Repr, DecidableEq

/-- FastAPI `HTTPException(status_code=…, detail=…)`. -/
structure HTTPError where
  status_code : Nat
  detail : String
deriving Repr, DecidableEq

/-- Parsed JSON value (integer numerics suffice for the fields the code reads). -/
inductive JsonVal where
  | null : JsonVal
  | num (n : Int) : JsonVal
  | str (s : String) : JsonVal
  | obj (fields : List (String × JsonVal)) : JsonVal
deriving Repr

/-- Python `dict` lookup on a parsed JSON object: first binding of the key. -/
def lookupField : List (String × JsonVal) → String → Option JsonVal
  | [], _ => none
  | (k, v) :: rest, key => if k = key then some v else lookupField rest key

mutual

/-- Python `repr` of a parsed JSON value (dicts print with single-quoted keys). -/
def pyRepr : JsonVal → String
  | JsonVal.null => "None"
  | JsonVal.num n => toString n
  | JsonVal.str s => "'" ++ s ++ "'"
  | JsonVal.obj fields => "\x7b" ++ pyReprFields fields ++ "\x7d"

/-- Renders the comma-separated `'key': value` items of a Python dict repr. -/
def pyReprFields : List (String × JsonVal) → String
  | [] => ""
  | [(k, v)] => "'" ++ k ++ "': " ++ pyRepr v
  | (k, v) :: rest => "'" ++ k ++ "': " ++ pyRepr v ++ ", " ++ pyReprFields rest

end

/-- Python `str` of a parsed JSON value (`str` on a `str` drops the quotes). -/
def pyStr : JsonVal → String
  | JsonVal.str s => s
  | v => pyRepr v

/-- Python `str.lower` (ASCII range, as in `Char.toLower`), written over the
character list so that it evaluates inside the kernel; agrees with Lean's
`String.toLower` (see `pyLower_eq_toLower`). -/
def pyLower (s : String) : String :=
  String.mk (s.data.map Char.toLower)

/-- Python `str.strip()`: drop whitespace from both ends. -/
def pyStrip (s : String) : String :=
  String.mk (((s.data.dropWhile Char.isWhitespace).reverse.dropWhile
    Char.isWhitespace).reverse)

/-- Splits a character list at every occurrence of `sep`
(Python `str.split(sep)` semantics: no merging, empty pieces kept). -/
def splitCharL (sep : Char) : List Char → List (List Char)
  | [] => [[]]
  | c :: rest =>
    match splitCharL sep rest with
    | [] => [[]]
    | cur :: parts => if c = sep then [] :: cur :: parts else (c :: cur) :: parts

/-- Python `str.split(sep)` for a one-character separator. -/
def pySplit (sep : Char) (s : String) : List String :=
  (splitCharL sep s.data).map String.mk

/-- Python `str.startswith(pre)`. -/
def pyStartsWith (s pre : String) : Bool :=
  pre.data.isPrefixOf s.data

/-- Replaces every (left-to-right, non-overlapping) occurrence of `pat` by
`rep` (Python `str.replace` with a non-empty pattern); `fuel` is a structural
bound on the recursion, at least the length of the scanned list (each step
consumes at least one character). -/
def replaceAllGo (pat rep : List Char) : Nat → List Char → List Char
  | 0, l => l
  | fuel + 1, l =>
    match l with
    | [] => []
    | c :: rest =>
      if pat ≠ [] ∧ pat.isPrefixOf (c :: rest) then
        rep ++ replaceAllGo pat rep fuel ((c :: rest).drop pat.length)
      else
        c :: replaceAllGo pat rep fuel rest

/-- Python `str.replace(pat, rep)`. -/
def pyReplace (s pat rep : String) : String :=
  String.mk (replaceAllGo pat.data rep.data s.data.length s.data)

/-- Settings fields of `app/core/config.py` that the core pipeline reads. -/
structure Settings where
  provider_api_key : String
  provider_base_url : String
  provider_timeout : Rat
  allowed_models : String
deriving Repr, DecidableEq

/-- Field defaults of `Settings` when no environment variable overrides them
(`app/core/config.py`, lines 12-16). -/
def defaultSettings : Settings :=
  { provider_api_key := ""
    provider_base_url := ""
    provider_timeout := 120
    allowed_models := "GPT-5.1,GPT-5.1-Instant,GPT-5-nano,GPT-5-mini,GPT-5,Gemini-2.5-Flash,Gemini-2.5-Pro,Claude-Haiku-4.5,Claude-Sonnet-4.5,DeepSeek-R1,DeepSeek-V3.2" }

/-- `Settings.allowed_models_list`: split the comma-separated string, strip
whitespace, drop empties. -/
def Settings.allowed_models_list (s : Settings) : List String :=
  ((pySplit ',' s.allowed_models).map pyStrip).filter (fun m => m ≠ "")

/-- `Settings.allowed_models_lowercase`. -/
def Settings.allowed_models_lowercase (s : Settings) : List String :=
  s.allowed_models_list.map pyLower

/-- `Settings.is_model_allowed`: case-insensitive membership. -/
def Settings.is_model_allowed (s : Settings) (model : String) : Bool :=
  s.allowed_models_lowercase.contains (pyLower model)

/-- State built by `ProxyService.__init__` (`app/services/proxy.py`, lines 12-15). -/
structure ProxyService where
  base_url : String
  api_key : String
  timeout : Rat
deriving Repr, DecidableEq

/-- `ProxyService.__init__`: copies the provider URL and key from settings and
sets `self.timeout = 120.0` (a literal, not `settings.provider_timeout`). -/
def ProxyService.init (s : Settings) : ProxyService :=
  { base_url := s.provider_base_url
    api_key := s.provider_api_key
    timeout := 120 }

/-- Error-detail extraction for a non-200 provider reply
(`app/services/proxy.py`, lines 46-51): start from the raw body text; if the
body parses to a dict with an `error` dict holding a `message`, use that value
(rendered by the f-string as Python `str`); every other shape raises inside the
bare `except` and keeps the raw text. `parsed = none` models an unparseable body. -/
def extract_error_detail (text : String) (parsed : Option JsonVal) : String :=
  match parsed with
  | some (JsonVal.obj fields) =>
    match lookupField fields "error" with
    | none => text
    | some (JsonVal.obj efields) =>
      match lookupField efields "message" with
      | none => text
      | some v => pyStr v
    | some _ => text
  | _ => text

/-- Transport outcome of the provider call inside
`ProxyService.forward_chat_completion`:
* `success fields` — HTTP 200 whose body parses to a JSON object (the
  provider's documented response shape);
* `httpError code text parsed` — HTTP reply with `code ≠ 200`, raw body
  `text`, and `parsed` its JSON parse when the body is parseable;
* `timeout` — `httpx.TimeoutException`;
* `connectError msg` — `httpx.RequestError` with `str(e) = msg`;
* `otherFailure msg` — any other exception (including a 200 reply whose body
  fails to parse) with `str(e) = msg`. -/
inductive ProviderOutcome where
  | success (fields : List (String × JsonVal)) : ProviderOutcome
  | httpError (code : Nat) (text : String) (parsed : Option JsonVal) : ProviderOutcome
  | timeout : ProviderOutcome
  | connectError (msg : String) : ProviderOutcome
  | otherFailure (msg : String) : ProviderOutcome

/-- `ProxyService.forward_chat_completion` (`app/services/proxy.py`,
lines 17-76): maps each transport outcome to the provider body or to the
`HTTPException` the except-chain raises. -/
def forward_chat_completion (outcome : ProviderOutcome) : Except HTTPError JsonVal :=
  match outcome with
  | ProviderOutcome.success fields => Except.ok (JsonVal.obj fields)
  | ProviderOutcome.httpError code text parsed =>
      Except.error ⟨code, "Provider error: " ++ extract_error_detail text parsed⟩
  | ProviderOutcome.timeout =>
      Except.error ⟨504, "Request to provider timed out"⟩
  | ProviderOutcome.connectError msg =>
      Except.error ⟨502, "Error connecting to provider: " ++ msg⟩
  | ProviderOutcome.otherFailure msg =>
      Except.error ⟨500, "Unexpected error: " ++ msg⟩

/-- `validate_team_token` (`app/core/auth.py`, lines 14-59). -/
def validate_team_token (authorization : String) (teams : List Team) :
    Except HTTPError Team :=
  if ¬ pyStartsWith authorization "Bearer " then
    Except.error ⟨401, "Invalid authorization header format. Use 'Bearer <token>'"⟩
  else
    let tok := pyStrip (pyReplace authorization "Bearer " "")
    if tok = "" then
      Except.error ⟨401, "Token not provided"⟩
    else
      match teams.find? (fun t => t.token = tok) with
      | none => Except.error ⟨401, "Invalid token"⟩
      | some team =>
        if ¬ team.is_active then
          Except.error ⟨403, "Team is inactive"⟩
        else
          Except.ok team

/-- `check_quota` (`app/core/auth.py`, lines 62-82): raises 429 when
`used_tokens >= quota_tokens`; `some e` models the raised exception. -/
def check_quota (team : Team) : Option HTTPError :=
  if team.quota_tokens ≤ team.used_tokens then
    some ⟨429,
      "Token quota exceeded. Used: " ++ toString team.used_tokens ++ "/" ++
      toString team.quota_tokens ++ " tokens. Remaining: 0 tokens. " ++
      "Check your usage at GET /v1/usage"⟩
  else
    none

/-- `check_rate_limit` (`app/core/auth.py`, lines 85-116) for one team: the
input list is `_rate_limit_tracker[team.id]`, `now` the current time in
seconds, `limit` the team's `max_requests_per_minute`. Keeps only timestamps
`ts > now - 60`, rejects with 429 when the kept count reaches the limit
(leaving the pruned list as the new tracker state), otherwise appends `now`.
Returns the raised exception (if any) and the new tracker state. -/
def check_rate_limit (history : List Int) (now : Int) (limit : Nat) :
    Option HTTPError × List Int :=
  let kept := history.filter (fun ts => now - 60 < ts)
  if limit ≤ kept.length then
    (some ⟨429,
      "Rate limit exceeded. Max " ++ toString limit ++
      " requests per minute. Try again in a few seconds."⟩, kept)
  else
    (none, kept ++ [now])

/-- `log_request` (`app/services/usage.py`, lines 9-66): builds the row that is
committed — model lowercased, `total_tokens = input + output`. -/
def log_request (team_id : Nat) (model : String) (input_tokens output_tokens : Int)
    (status : String) (error_message : Option String) : RequestLog :=
  { team_id := team_id
    model := pyLower model
    input_tokens := input_tokens
    output_tokens := output_tokens
    total_tokens := input_tokens + output_tokens
    status := status
    error_message := error_message }

/-- Net effect on the team's `used_tokens` column of one call to
`update_team_usage` (`app/services/usage.py`, lines 69-81) executed in
isolation: `team.used_tokens += tokens_used`. -/
def update_team_usage (used_tokens tokens_used : Int) : Int :=
  used_tokens + tokens_used

/-- Fields of `ChatCompletionRequest` (`app/models/schemas.py`) that the
admission pipeline branches on; the remaining fields (messages, temperature,
max_tokens) only pass through inside the payload snapshots, which are not
modelled. -/
structure ChatRequest where
  model : String
  stream : Bool
deriving Repr, DecidableEq

/-- Python `dict.get(key, default)` on a JSON object value; callers only apply
it to object values (the provider's documented response shape). -/
def jsonGetD (j : JsonVal) (key : String) (dflt : JsonVal) : JsonVal :=
  match j with
  | JsonVal.obj fields =>
    match lookupField fields key with
    | some v => v
    | none => dflt
  | _ => dflt

/-- Integer value of a JSON numeric (token-count fields are integers in the
provider contract). -/
def jsonInt : JsonVal → Int
  | JsonVal.num n => n
  | _ => 0

/-- The `error_msg` built for a disallowed model
(`app/api/proxy.py`, lines 83-88). -/
def modelErrorMsg (s : Settings) (req : ChatRequest) : String :=
  "Model '" ++ req.model ++ "' is not available. Available models: " ++
  ", ".intercalate s.allowed_models_list ++
  ". You can also list models at GET /v1/models"

/-- Observable result of one `chat_completions` invocation: the HTTP response
(provider body or raised `HTTPException`), the `RequestLog` rows committed, the
team's `used_tokens` afterwards, and `_rate_limit_tracker[team.id]` afterwards. -/
structure PipelineResult where
  response : Except HTTPError JsonVal
  logs : List RequestLog
  used_after : Int
  rate_after : List Int

/-- `chat_completions` (`app/api/proxy.py`, lines 62-157) after the team has
been resolved by the `validate_team_token` dependency. Mirrors the source
order: `check_rate_limit`, `check_quota` (both raised exceptions escape before
the `try` block, so they commit no log row), the model-allowlist check (logs
then raises), the streaming check (raises without logging), then the forward
call whose failures are logged and re-raised and whose success is logged and
credited. -/
def chat_completions (s : Settings) (team : Team) (req : ChatRequest)
    (history : List Int) (now : Int) (outcome : ProviderOutcome) : PipelineResult :=
  match check_rate_limit history now team.max_requests_per_minute with
  | (some e, kept) =>
      { response := Except.error e, logs := [], used_after := team.used_tokens,
        rate_after := kept }
  | (none, rate') =>
    match check_quota team with
    | some e =>
        { response := Except.error e, logs := [], used_after := team.used_tokens,
          rate_after := rate' }
    | none =>
      let model_lower := pyLower req.model
      if ¬ s.is_model_allowed req.model then
        let error_msg := modelErrorMsg s req
        { response := Except.error ⟨400, error_msg⟩
          logs := [log_request team.id model_lower 0 0 "error" (some error_msg)]
          used_after := team.used_tokens
          rate_after := rate' }
      else if req.stream then
        { response := Except.error ⟨400, "Streaming is not supported"⟩
          logs := [], used_after := team.used_tokens, rate_after := rate' }
      else
        match forward_chat_completion outcome with
        | Except.ok body =>
          let usage := jsonGetD body "usage" (JsonVal.obj [])
          let input_tokens := jsonInt (jsonGetD usage "prompt_tokens" (JsonVal.num 0))
          let output_tokens := jsonInt (jsonGetD usage "completion_tokens" (JsonVal.num 0))
          let total_tokens := jsonInt (jsonGetD usage "total_tokens" (JsonVal.num 0))
          { response := Except.ok body
            logs := [log_request team.id model_lower input_tokens output_tokens
                      "success" none]
            used_after := update_team_usage team.used_tokens total_tokens
            rate_after := rate' }
        | Except.error e =>
          { response := Except.error e
            logs := [log_request team.id model_lower 0 0 "error" (some e.detail)]
            used_after := team.used_tokens
            rate_after := rate' }

/-- One full request to `POST /v1/chat/completions`: the
`validate_team_token` dependency runs first and its rejections reach the
caller before the endpoint body, so they commit no log row. Returns the
response and the committed log rows. -/
def handle_request (s : Settings) (teams : List Team) (authorization : String)
    (req : ChatRequest) (history : List Int) (now : Int)
    (outcome : ProviderOutcome) : Except HTTPError JsonVal × List RequestLog :=
  match validate_team_token authorization teams with
  | Except.error e => (Except.error e, [])
  | Except.ok team =>
    let r := chat_completions s team req history now outcome
    (r.response, r.logs)

/-- SQL `LIKE` pattern matching over characters: `%` matches any sequence,
`_` any single character (SQLite `LIKE`, no escape clause); `fuel` is a
structural bound on the recursion, at least `p.length + s.length` (each step
shortens the pattern or the string). -/
def likeMatchGo : Nat → List Char → List Char → Bool
  | 0, _, _ => false
  | _ + 1, [], s => s.isEmpty
  | fuel + 1, c :: p, s =>
    if c = '%' then
      match s with
      | [] => likeMatchGo fuel p []
      | _ :: s' => likeMatchGo fuel p s || likeMatchGo fuel (c :: p) s'
    else
      match s with
      | [] => false
      | d :: s' =>
        if c = '_' then likeMatchGo fuel p s'
        else (c = d) && likeMatchGo fuel p s'

/-- SQL `LIKE` matching of pattern `p` against string `s`. -/
def likeMatchL (p s : List Char) : Bool :=
  likeMatchGo (p.length + s.length + 1) p s

/-- SQLAlchemy `Team.name.ilike(pattern)` on SQLite: case-insensitive `LIKE`
(`lower(name) LIKE lower(pattern)`). -/
def ilikeMatch (name pattern : String) : Bool :=
  likeMatchL (pyLower pattern).data (pyLower name).data

/-- Body of the 200 reply of `GET /v1/usage/{username}`
(`app/api/proxy.py`, lines 50-59); `usage_percentage` is kept as the exact
rational the float computation approximates (Python's `round(·, 2)` of the
float is not modelled — no claim refers to the rendered percentage). -/
structure UsageSnapshot where
  team_name : String
  quota_tokens : Int
  used_tokens : Int
  remaining_tokens : Int
  usage_percentage : Rat
  total_requests : Nat
  max_requests_per_minute : Nat
  is_active : Bool
deriving Repr, DecidableEq

/-- Snapshot built by `get_usage` for a found team, over the `request_logs`
table `logs`. -/
def snapshotOf (logs : List RequestLog) (team : Team) : UsageSnapshot :=
  { team_name := team.name
    quota_tokens := team.quota_tokens
    used_tokens := team.used_tokens
    remaining_tokens := team.quota_tokens - team.used_tokens
    usage_percentage :=
      if 0 < team.quota_tokens then
        ((team.used_tokens : Rat) / (team.quota_tokens : Rat)) * 100
      else 0
    total_requests := (logs.filter (fun l => l.team_id = team.id)).length
    max_requests_per_minute := team.max_requests_per_minute
    is_active := team.is_active }

/-- `get_usage` endpoint (`app/api/proxy.py`, lines 26-59):
`db.query(Team).filter(Team.name.ilike(username)).first()`, then the snapshot,
or the empty object (`none`) when no row matches. -/
def get_usage (teams : List Team) (logs : List RequestLog) (username : String) :
    Option UsageSnapshot :=
  match teams.find? (fun t => ilikeMatch t.name username) with
  | none => none
  | some team => some (snapshotOf logs team)

/-- Modelled from the spec: the rate-limiter discard rule as the spec words it
("discard timestamps older than 60 seconds before now", §4.1) — a timestamp is
kept unless it is strictly older than `now - 60`. Stated for refinement
comparison against the filter inside `check_rate_limit`. -/
def claimed_rate_filter (history : List Int) (now : Int) : List Int :=
  history.filter (fun ts => ¬ ts < now - 60)

/-- Modelled from the spec: `app/core/database.py` (engine and session
factory) is absent from `src/`, so the session discipline follows §5 of the
spec: each request handler runs `update_team_usage` in its own session, whose
`query(...).first()` reads the team's last committed `used_tokens` and whose
`commit()` writes back the value computed in Python — the "read, add, write"
sequence §5 contrasts with an atomic storage-layer add. Phase of one such
credit operation. -/
inductive CreditPhase where
  | toRead : CreditPhase
  | toCommit (loaded : Int) : CreditPhase
  | done : CreditPhase
deriving Repr, DecidableEq

/-- One in-flight credit operation: the tokens it will add and its phase. -/
structure CreditThread where
  k : Int
  phase : CreditPhase
deriving Repr, DecidableEq

/-- One atomic database interaction of `update_team_usage`: the read loads the
shared committed counter into the session; the commit writes `loaded + k`. -/
def creditStep (shared : Int) (t : CreditThread) : Int × CreditThread :=
  match t.phase with
  | CreditPhase.toRead => (shared, { t with phase := CreditPhase.toCommit shared })
  | CreditPhase.toCommit v => (v + t.k, { t with phase := CreditPhase.done })
  | CreditPhase.done => (shared, t)

/-- Runs a schedule (a list of thread indices) of interleaved credit
operations against the shared `used_tokens` counter. -/
def runCredits : List Nat → Int → List CreditThread → Int × List CreditThread
  | [], shared, ts => (shared, ts)
  | i :: rest, shared, ts =>
    match ts.get? i with
    | none => runCredits rest shared ts
    | some t =>
      let (s', t') := creditStep shared t
      runCredits rest s' (ts.set i t')

/-- Serialized execution of `n` credit operations of `k` tokens each, one
completing before the next starts. -/
def creditSerialRun : Nat → Int → Int → Int
  | 0, _, used => used
  | n + 1, k, used => creditSerialRun n k (update_team_usage used k)

/-- Status code the caller observes (FastAPI returns 200 for a plain value). -/
def respStatus : Except HTTPError JsonVal → Nat
  | Except.ok _ => 200
  | Except.error e => e.status_code

/-- Detail string the caller observes on a rejection (empty on success). -/
def respDetail : Except HTTPError JsonVal → String
  | Except.ok _ => ""
  | Except.error e => e.detail

/-! Helper lemmas shared by the claim theorems. -/

theorem char_toLower_toLower (c : Char) : c.toLower.toLower = c.toLower := by
  unfold Char.toLower
  by_cases h : c.toNat ≥ 65 ∧ c.toNat ≤ 90
  · rw [if_pos h]
    have hval : (Char.ofNat (c.toNat + 32)).toNat = c.toNat + 32 := by
      rw [Char.ofNat, dif_pos (Or.inl (by omega))]
      simp [Char.ofNatAux, Char.toNat, UInt32.toNat, BitVec.toNat_ofNatLt]
    rw [if_neg (by omega)]
  · rw [if_neg h, if_neg h]

theorem pyLower_eq_toLower (s : String) : pyLower s = s.toLower := by
  show String.mk (s.data.map Char.toLower) = s.map Char.toLower
  rw [String.map_eq]

theorem pyLower_pyLower (s : String) : pyLower (pyLower s) = pyLower s := by
  simp [pyLower, List.map_map, Function.comp_def, char_toLower_toLower]

/-- Symbolic evaluation of `chat_completions` when every pre-forward gate
passes: the result is determined by the forward outcome. -/
theorem chat_completions_gates_open (s : Settings) (team : Team) (req : ChatRequest)
    (history : List Int) (now : Int) (outcome : ProviderOutcome)
    (hrate : (check_rate_limit history now team.max_requests_per_minute).1 = none)
    (hquota : check_quota team = none)
    (hmodel : s.is_model_allowed req.model = true)
    (hstream : req.stream = false) :
    chat_completions s team req history now outcome =
      match forward_chat_completion outcome with
      | Except.ok body =>
        { response := Except.ok body
          logs := [log_request team.id (pyLower req.model)
            (jsonInt (jsonGetD (jsonGetD body "usage" (JsonVal.obj []))
              "prompt_tokens" (JsonVal.num 0)))
            (jsonInt (jsonGetD (jsonGetD body "usage" (JsonVal.obj []))
              "completion_tokens" (JsonVal.num 0)))
            "success" none]
          used_after := update_team_usage team.used_tokens
            (jsonInt (jsonGetD (jsonGetD body "usage" (JsonVal.obj []))
              "total_tokens" (JsonVal.num 0)))
          rate_after := (check_rate_limit history now team.max_requests_per_minute).2 }
      | Except.error e =>
        { response := Except.error e
          logs := [log_request team.id (pyLower req.model) 0 0 "error" (some e.detail)]
          used_after := team.used_tokens
          rate_after := (check_rate_limit history now team.max_requests_per_minute).2 } := by
  rcases hcr : check_rate_limit history now team.max_requests_per_minute with ⟨o, rate2⟩
  rw [hcr] at hrate
  simp only at hrate
  subst hrate
  unfold chat_completions
  rw [hcr, hquota]
  simp only [hmodel, hstream, not_true_eq_false, if_false, Bool.false_eq_true]

/-- Lowercasing cannot produce a character outside the lowercase range, such
as the SQL wildcards. -/
theorem char_toLower_ne (c ch : Char) (hch : ch.toNat < 97 ∨ 122 < ch.toNat)
    (h : c ≠ ch) : c.toLower ≠ ch := by
  rw [show c.toLower =
    (if c.toNat ≥ 65 ∧ c.toNat ≤ 90 then Char.ofNat (c.toNat + 32) else c) from rfl]
  split
  next hr =>
    intro heq
    have hval : (Char.ofNat (c.toNat + 32)).toNat = c.toNat + 32 := by
      rw [Char.ofNat, dif_pos (Or.inl (by omega))]
      simp [Char.ofNatAux, Char.toNat, UInt32.toNat, BitVec.toNat_ofNatLt]
    rw [heq] at hval
    omega
  next hr =>
    exact h

/-- A wildcard-free `LIKE` pattern matches exactly itself. -/
theorem likeMatchGo_no_wildcard (fuel : Nat) (p s : List Char)
    (hfuel : p.length + s.length < fuel)
    (hw : ∀ c ∈ p, c ≠ '%' ∧ c ≠ '_') :
    likeMatchGo fuel p s = decide (p = s) := by
  induction fuel generalizing p s with
  | zero => omega
  | succ f ih =>
    cases p with
    | nil => cases s <;> simp [likeMatchGo]
    | cons c p' =>
      have hc := hw c (List.mem_cons_self c p')
      cases s with
      | nil =>
        simp only [likeMatchGo]
        rw [if_neg hc.1]
        simp
      | cons d s' =>
        simp only [likeMatchGo]
        rw [if_neg hc.1, if_neg hc.2]
        rw [ih p' s' (by simp at hfuel ⊢; omega)
          (fun x hx => hw x (List.mem_cons_of_mem c hx))]
        simp [List.cons.injEq, Bool.decide_and]

/-- `likeMatchL` on a wildcard-free pattern is equality. -/
theorem likeMatchL_no_wildcard (p s : List Char)
    (hw : ∀ c ∈ p, c ≠ '%' ∧ c ≠ '_') :
    likeMatchL p s = decide (p = s) :=
  likeMatchGo_no_wildcard (p.length + s.length + 1) p s (by omega) hw

/-- `ilike` with a wildcard-free username degenerates to case-insensitive
equality of the names. -/
theorem ilikeMatch_no_wildcard (name username : String)
    (hw : ∀ c ∈ username.data, c ≠ '%' ∧ c ≠ '_') :
    ilikeMatch name username = decide (pyLower name = pyLower username) := by
  unfold ilikeMatch
  rw [likeMatchL_no_wildcard]
  · rw [decide_eq_decide]
    constructor
    · intro hdata
      exact (String.ext hdata).symm
    · intro hstr
      rw [hstr]
  · intro c hionly
    simp only [pyLower, List.mem_map] at hionly
    obtain ⟨a, ha, rfl⟩ := hionly
    exact ⟨char_toLower_ne a '%' (by decide) (hw a ha).1,
      char_toLower_ne a '_' (by decide) (hw a ha).2⟩

/-! Claim theorems. -/

/-- C2 (amended): when the credit operations of N successful completions, each
reporting `total_tokens = k`, execute serialized (each read-increment-commit
finishing before the next starts), the team's `used_tokens` increases by
exactly `N*k`; and one uninterleaved run of the two-step read/commit model
equals the isolated effect of `update_team_usage`. The increment itself is a
read-modify-write, not an atomic storage-layer add — see the counterexample. -/
theorem credit_serialized_no_lost_update :
    (∀ (n : Nat) (k used : Int), creditSerialRun n k used = used + n * k) ∧
    (∀ (used k : Int),
      (runCredits [0, 0] used [{ k := k, phase := CreditPhase.toRead }]).1 =
        update_team_usage used k) := by
  constructor
  · intro n
    induction n with
    | zero => intro k used; simp [creditSerialRun]
    | succ m ih =>
      intro k used
      simp only [creditSerialRun, update_team_usage, ih]
      push_cast
      ring
  · intro used k
    rfl

/-- C2 (counterexample): two concurrent credit operations of 5 tokens each,
interleaved as read-A, read-B, commit-A, commit-B (the schedule the naive
read-modify-write in `update_team_usage` permits), leave the counter at 5,
not at 0 + 2*5: one update is lost. -/
theorem credit_interleaving_lost_update :
    (runCredits [0, 1, 0, 1] 0
      [{ k := 5, phase := CreditPhase.toRead },
       { k := 5, phase := CreditPhase.toRead }]).1 = 5 ∧
    (5 : Int) ≠ 0 + 2 * 5 := by
  exact ⟨rfl, by decide⟩

/-- C3: the quota check rejects (with status 429) exactly when
`used_tokens >= quota_tokens`; a team one token below quota is admitted, and a
subsequent successful request whose provider response reports
`total_tokens = 1` brings `used_tokens` to exactly `quota_tokens`. -/
theorem quota_guard_boundary (team : Team) (s : Settings) (req : ChatRequest)
    (history : List Int) (now : Int) (fields : List (String × JsonVal)) :
    ((check_quota team).isSome ↔ team.quota_tokens ≤ team.used_tokens) ∧
    (∀ e, check_quota team = some e → e.status_code = 429) ∧
    (team.used_tokens = team.quota_tokens → (check_quota team).isSome = true) ∧
    (team.used_tokens = team.quota_tokens - 1 → check_quota team = none) ∧
    (team.used_tokens = team.quota_tokens - 1 →
      (check_rate_limit history now team.max_requests_per_minute).1 = none →
      s.is_model_allowed req.model = true →
      req.stream = false →
      jsonInt (jsonGetD (jsonGetD (JsonVal.obj fields) "usage" (JsonVal.obj []))
        "total_tokens" (JsonVal.num 0)) = 1 →
      (chat_completions s team req history now
        (ProviderOutcome.success fields)).used_after = team.quota_tokens) := by
  refine ⟨?_, ?_, ?_, ?_, ?_⟩
  · simp only [check_quota]
    split <;> simp_all
  · intro e he
    simp only [check_quota] at he
    split at he
    · cases he; rfl
    · cases he
  · intro h
    simp only [check_quota]
    rw [if_pos (by omega)]
    rfl
  · intro h
    simp only [check_quota]
    rw [if_neg (by omega)]
  · intro h hrate hmodel hstream htot
    rw [chat_completions_gates_open s team req history now _ hrate
      (by simp only [check_quota]; rw [if_neg (by omega)]) hmodel hstream]
    simp only [forward_chat_completion]
    simp only [update_team_usage, htot]
    omega

/-- C3 (witness): a team with quota 100 and 99 used tokens passes the quota
check, and a successful 1-token completion brings it to exactly 100. -/
theorem quota_guard_boundary_instance :
    check_quota ⟨1, "alpha", "tok", 100, 99, 5, true⟩ = none ∧
    (chat_completions ⟨"", "", 120, "GPT-5-nano"⟩ ⟨1, "alpha", "tok", 100, 99, 5, true⟩
      ⟨"gpt-5-nano", false⟩ [] 0
      (ProviderOutcome.success [("usage", JsonVal.obj [("prompt_tokens", JsonVal.num 1),
        ("completion_tokens", JsonVal.num 0), ("total_tokens", JsonVal.num 1)])])).used_after
      = 100 := by
  have h := quota_guard_boundary ⟨1, "alpha", "tok", 100, 99, 5, true⟩
    ⟨"", "", 120, "GPT-5-nano"⟩ ⟨"gpt-5-nano", false⟩ [] 0
    [("usage", JsonVal.obj [("prompt_tokens", JsonVal.num 1),
      ("completion_tokens", JsonVal.num 0), ("total_tokens", JsonVal.num 1)])]
  exact ⟨h.2.2.2.1 (by decide), h.2.2.2.2 (by decide) (by decide) (by decide) rfl (by decide)⟩

/-- C4 (amended): each rate-limit check keeps exactly the timestamps strictly
younger than 60 seconds (discarding those 60 seconds old or older), rejects
with 429 — without recording the new attempt — iff the kept count has reached
the limit, and otherwise appends `now`; with a limit of 3, three requests
within one second are accepted, a fourth within the same minute is rejected
leaving the window unchanged, and once the oldest timestamp ages past 60
seconds a new request is accepted again. -/
theorem rate_limiter_sliding_window (history : List Int) (now : Int) (limit : Nat) :
    ((check_rate_limit history now limit).1.isSome ↔
      limit ≤ (history.filter (fun ts => now - 60 < ts)).length) ∧
    (∀ e, (check_rate_limit history now limit).1 = some e → e.status_code = 429) ∧
    (∀ ts : Int, ts ∈ (check_rate_limit history now limit).2 ↔
      ((ts ∈ history ∧ now - 60 < ts) ∨
        ((check_rate_limit history now limit).1 = none ∧ ts = now))) ∧
    ((check_rate_limit [] 0 3).1 = none ∧
      (check_rate_limit [0] 0 3).1 = none ∧
      (check_rate_limit [0, 0] 1 3).1 = none ∧
      (check_rate_limit [0, 0, 1] 30 3).1.isSome = true ∧
      (check_rate_limit [0, 0, 1] 30 3).2 = [0, 0, 1] ∧
      (check_rate_limit [0, 0, 1] 61 3).1 = none) := by
  refine ⟨?_, ?_, ?_, by decide⟩
  · simp only [check_rate_limit]
    split <;> simp_all
  · intro e he
    simp only [check_rate_limit] at he
    split at he
    · cases he; rfl
    · cases he
  · intro ts
    simp only [check_rate_limit]
    split
    case isTrue h =>
      simp [List.mem_filter]
    case isFalse h =>
      simp [List.mem_filter]

/-- C4 (witness): a concrete rejected check carries status 429, and a
concrete accepted check records the new attempt's timestamp. -/
theorem rate_limiter_sliding_window_instance :
    (⟨429, "Rate limit exceeded. Max 3 requests per minute. Try again in a few seconds."⟩ :
      HTTPError).status_code = 429 ∧
    (30 : Int) ∈ (check_rate_limit [0] 30 3).2 :=
  ⟨(rate_limiter_sliding_window [0, 0, 1] 30 3).2.1 _ (by decide),
    ((rate_limiter_sliding_window [0] 30 3).2.2.1 30).mpr (Or.inr ⟨by decide, rfl⟩)⟩

/-- C4 (counterexample): with one recorded timestamp exactly 60 seconds old
and a limit of 1, the code discards that timestamp (it is not older than
`now - 60`, so the claim's discard rule retains it, making the remaining count
reach the limit and mandating rejection) and accepts, recording the new
attempt. -/
theorem rate_limiter_discard_boundary :
    (check_rate_limit [0] 60 1).1 = none ∧
    (check_rate_limit [0] 60 1).2 = [60] ∧
    1 ≤ (claimed_rate_filter [0] 60).length := by
  decide

/-- C5 (amended): a streaming request that passes the rate-limit, quota and
model-allowlist gates is rejected with HTTP 400 "Streaming is not supported",
and the rejection is raised before the logging block, so it produces no log
entry. -/
theorem streaming_rejected_without_log (s : Settings) (team : Team)
    (req : ChatRequest) (history : List Int) (now : Int) (outcome : ProviderOutcome)
    (hrate : (check_rate_limit history now team.max_requests_per_minute).1 = none)
    (hquota : check_quota team = none)
    (hmodel : s.is_model_allowed req.model = true)
    (hstream : req.stream = true) :
    (chat_completions s team req history now outcome).response =
      Except.error ⟨400, "Streaming is not supported"⟩ ∧
    (chat_completions s team req history now outcome).logs = [] := by
  rcases hcr : check_rate_limit history now team.max_requests_per_minute with ⟨o, rate2⟩
  rw [hcr] at hrate
  simp only at hrate
  subst hrate
  unfold chat_completions
  rw [hcr, hquota]
  simp [hmodel, hstream]

/-- C5 (witness): a concrete in-quota, in-rate, allowed-model request with
`stream = true` is rejected 400 and leaves no log entry. -/
theorem streaming_rejected_without_log_instance :
    (chat_completions ⟨"", "", 120, "GPT-5-nano"⟩ ⟨1, "alpha", "tok", 100, 0, 5, true⟩
      ⟨"gpt-5-nano", true⟩ [] 0 ProviderOutcome.timeout).response =
      Except.error ⟨400, "Streaming is not supported"⟩ ∧
    (chat_completions ⟨"", "", 120, "GPT-5-nano"⟩ ⟨1, "alpha", "tok", 100, 0, 5, true⟩
      ⟨"gpt-5-nano", true⟩ [] 0 ProviderOutcome.timeout).logs = [] :=
  streaming_rejected_without_log _ _ _ _ _ _ (by decide) (by decide) (by decide) rfl

/-- C5 (counterexample): a concrete streaming request is rejected with 400 yet
zero log entries are recorded, contradicting the claim that the rejection is
still recorded as a log entry. -/
theorem streaming_rejection_unlogged :
    respStatus (chat_completions ⟨"", "", 120, "GPT-5-nano"⟩
      ⟨2, "beta", "tok2", 100, 0, 5, true⟩ ⟨"gpt-5-nano", true⟩ [] 0
      ProviderOutcome.timeout).response = 400 ∧
    respDetail (chat_completions ⟨"", "", 120, "GPT-5-nano"⟩
      ⟨2, "beta", "tok2", 100, 0, 5, true⟩ ⟨"gpt-5-nano", true⟩ [] 0
      ProviderOutcome.timeout).response = "Streaming is not supported" ∧
    (chat_completions ⟨"", "", 120, "GPT-5-nano"⟩
      ⟨2, "beta", "tok2", 100, 0, 5, true⟩ ⟨"gpt-5-nano", true⟩ [] 0
      ProviderOutcome.timeout).logs = [] := by
  decide

/-- C6: the forwarder maps a non-200 provider reply to an error carrying the
provider's own status code with the nested `error.message` when present and
the raw body text when the `error`/`message` fields are absent or the body is
unparseable; a timeout to 504, a connection failure to 502, any other failure
to 500; and no non-success outcome is silently swallowed. -/
theorem forwarder_error_mapping :
    (∀ (code : Nat) (text : String) (fields efields : List (String × JsonVal))
      (msg : String),
      lookupField fields "error" = some (JsonVal.obj efields) →
      lookupField efields "message" = some (JsonVal.str msg) →
      forward_chat_completion (ProviderOutcome.httpError code text
        (some (JsonVal.obj fields))) =
        Except.error ⟨code, "Provider error: " ++ msg⟩) ∧
    (∀ (code : Nat) (text : String) (fields : List (String × JsonVal)),
      lookupField fields "error" = none →
      forward_chat_completion (ProviderOutcome.httpError code text
        (some (JsonVal.obj fields))) =
        Except.error ⟨code, "Provider error: " ++ text⟩) ∧
    (∀ (code : Nat) (text : String) (fields efields : List (String × JsonVal)),
      lookupField fields "error" = some (JsonVal.obj efields) →
      lookupField efields "message" = none →
      forward_chat_completion (ProviderOutcome.httpError code text
        (some (JsonVal.obj fields))) =
        Except.error ⟨code, "Provider error: " ++ text⟩) ∧
    (∀ (code : Nat) (text : String),
      forward_chat_completion (ProviderOutcome.httpError code text none) =
        Except.error ⟨code, "Provider error: " ++ text⟩) ∧
    (forward_chat_completion ProviderOutcome.timeout =
      Except.error ⟨504, "Request to provider timed out"⟩) ∧
    (∀ msg, forward_chat_completion (ProviderOutcome.connectError msg) =
      Except.error ⟨502, "Error connecting to provider: " ++ msg⟩) ∧
    (∀ msg, forward_chat_completion (ProviderOutcome.otherFailure msg) =
      Except.error ⟨500, "Unexpected error: " ++ msg⟩) ∧
    (∀ o, (∀ fields, o ≠ ProviderOutcome.success fields) →
      ∃ e, forward_chat_completion o = Except.error e) := by
  refine ⟨?_, ?_, ?_, fun code text => rfl, rfl, fun msg => rfl, fun msg => rfl, ?_⟩
  · intro code text fields efields msg h1 h2
    simp [forward_chat_completion, extract_error_detail, h1, h2, pyStr]
  · intro code text fields h1
    simp [forward_chat_completion, extract_error_detail, h1]
  · intro code text fields efields h1 h2
    simp [forward_chat_completion, extract_error_detail, h1, h2]
  · intro o h
    cases o with
    | success fields => exact absurd rfl (h fields)
    | httpError code text parsed => exact ⟨_, rfl⟩
    | timeout => exact ⟨_, rfl⟩
    | connectError msg => exact ⟨_, rfl⟩
    | otherFailure msg => exact ⟨_, rfl⟩

/-- C6 (witness): a provider 400 whose body is
`\x7b"error": \x7b"message": "bad request"\x7d\x7d` is forwarded as status 400
with detail "Provider error: bad request"; a parseable body without an `error`
field falls back to the raw text. -/
theorem forwarder_error_mapping_instance :
    forward_chat_completion (ProviderOutcome.httpError 400 "raw"
      (some (JsonVal.obj [("error", JsonVal.obj [("message", JsonVal.str "bad request")])]))) =
      Except.error ⟨400, "Provider error: bad request"⟩ ∧
    forward_chat_completion (ProviderOutcome.httpError 503 "oops" (some (JsonVal.obj []))) =
      Except.error ⟨503, "Provider error: oops"⟩ :=
  ⟨forwarder_error_mapping.1 400 "raw"
      [("error", JsonVal.obj [("message", JsonVal.str "bad request")])]
      [("message", JsonVal.str "bad request")] "bad request" rfl rfl,
    forwarder_error_mapping.2.1 503 "oops" [] rfl⟩

/-- C7: a requested model passes the allowlist check iff it equals some
allowed model name case-insensitively; on rejection the pipeline responds 400
with a message listing all allowed models and commits exactly one log entry
with zero tokens, status `error`, and the model stored lowercased. -/
theorem model_allowlist_check (s : Settings) (team : Team) (req : ChatRequest)
    (history : List Int) (now : Int) (outcome : ProviderOutcome)
    (hrate : (check_rate_limit history now team.max_requests_per_minute).1 = none)
    (hquota : check_quota team = none) :
    (s.is_model_allowed req.model = true ↔
      ∃ a ∈ s.allowed_models_list, pyLower a = pyLower req.model) ∧
    (s.is_model_allowed req.model = false →
      (chat_completions s team req history now outcome).response =
        Except.error ⟨400, modelErrorMsg s req⟩ ∧
      (chat_completions s team req history now outcome).logs =
        [⟨team.id, pyLower req.model, 0, 0, 0, "error", some (modelErrorMsg s req)⟩] ∧
      ∃ pre post, modelErrorMsg s req =
        pre ++ ", ".intercalate s.allowed_models_list ++ post) := by
  constructor
  · simp [Settings.is_model_allowed, Settings.allowed_models_lowercase,
      List.contains, List.elem_iff, List.mem_map]
  · intro h
    rcases hcr : check_rate_limit history now team.max_requests_per_minute with ⟨o, rate2⟩
    rw [hcr] at hrate
    simp only at hrate
    subst hrate
    unfold chat_completions
    rw [hcr, hquota]
    refine ⟨?_, ?_, ?_⟩
    · simp [h]
    · simp [h, log_request, pyLower_pyLower]
    · exact ⟨"Model '" ++ req.model ++ "' is not available. Available models: ",
        ". You can also list models at GET /v1/models", rfl⟩

/-- C7 (witness): with allowlist "GPT-5-nano", requested model "GPT-5-NANO" is
accepted case-insensitively, and requested model "gpt-4" is rejected with one
zero-token error log entry storing "gpt-4". -/
theorem model_allowlist_check_instance :
    (⟨"", "", 120, "GPT-5-nano"⟩ : Settings).is_model_allowed "GPT-5-NANO" = true ∧
    (chat_completions ⟨"", "", 120, "GPT-5-nano"⟩ ⟨7, "eta", "tok7", 100, 0, 5, true⟩
      ⟨"gpt-4", false⟩ [] 0 ProviderOutcome.timeout).logs =
      [⟨7, "gpt-4", 0, 0, 0, "error",
        some (modelErrorMsg ⟨"", "", 120, "GPT-5-nano"⟩ ⟨"gpt-4", false⟩)⟩] := by
  have h1 := (model_allowlist_check ⟨"", "", 120, "GPT-5-nano"⟩
    ⟨7, "eta", "tok7", 100, 0, 5, true⟩ ⟨"GPT-5-NANO", false⟩ [] 0
    ProviderOutcome.timeout (by decide) (by decide)).1
  have h2 := (model_allowlist_check ⟨"", "", 120, "GPT-5-nano"⟩
    ⟨7, "eta", "tok7", 100, 0, 5, true⟩ ⟨"gpt-4", false⟩ [] 0
    ProviderOutcome.timeout (by decide) (by decide)).2
  exact ⟨h1.mpr ⟨"GPT-5-nano", by decide, by decide⟩, (h2 (by decide)).2.1⟩

/-- C1 (amended): a rejection at the token-authentication stage commits no log
entry; after a team is identified, an invocation of the admission pipeline
commits exactly one log entry when it fails the model-allowlist check or
reaches the forward stage (forward failure or success), and zero log entries
when it is rejected at the rate-limit, quota, or streaming stage. -/
theorem admission_log_counts (s : Settings) (teams : List Team)
    (authorization : String) (team : Team) (req : ChatRequest)
    (history : List Int) (now : Int) (outcome : ProviderOutcome) :
    (∀ e, validate_team_token authorization teams = Except.error e →
      (handle_request s teams authorization req history now outcome).2 = []) ∧
    ((chat_completions s team req history now outcome).logs.length =
      if (check_rate_limit history now team.max_requests_per_minute).1.isSome then 0
      else if (check_quota team).isSome then 0
      else if s.is_model_allowed req.model = false then 1
      else if req.stream = true then 0
      else 1) := by
  constructor
  · intro e he
    unfold handle_request
    rw [he]
  · rcases hcr : check_rate_limit history now team.max_requests_per_minute with ⟨o, rate2⟩
    unfold chat_completions
    rw [hcr]
    cases o with
    | some e => simp
    | none =>
      rcases hq : check_quota team with _ | e
      · by_cases hm : s.is_model_allowed req.model
        · by_cases hs : req.stream
          · simp [hq, hm, hs]
          · cases hfwd : forward_chat_completion outcome <;> simp [hq, hm, hs, hfwd]
        · simp [hq, hm]
      · simp [hq]

/-- C1 (witness): a request with an unknown bearer token commits no log entry,
and an identified request that reaches the forward stage commits exactly one. -/
theorem admission_log_counts_instance :
    (handle_request ⟨"", "", 120, "GPT-5-nano"⟩ [⟨6, "zeta", "tok6", 100, 0, 5, true⟩]
      "Bearer wrong" ⟨"gpt-5-nano", false⟩ [] 0 (ProviderOutcome.success [])).2 = [] ∧
    (chat_completions ⟨"", "", 120, "GPT-5-nano"⟩ ⟨6, "zeta", "tok6", 100, 0, 5, true⟩
      ⟨"gpt-5-nano", false⟩ [] 0 (ProviderOutcome.success [])).logs.length = 1 := by
  have h := admission_log_counts ⟨"", "", 120, "GPT-5-nano"⟩
    [⟨6, "zeta", "tok6", 100, 0, 5, true⟩] "Bearer wrong"
    ⟨6, "zeta", "tok6", 100, 0, 5, true⟩ ⟨"gpt-5-nano", false⟩ [] 0
    (ProviderOutcome.success [])
  refine ⟨h.1 ⟨401, "Invalid token"⟩ rfl, ?_⟩
  rw [h.2]
  decide

/-- C1 (counterexample): a concrete rate-limited request and a concrete
quota-exceeded request are both rejected with 429 yet commit zero log entries,
contradicting the claim that rejections at these stages produce exactly one
zero-token error log entry. -/
theorem pre_try_rejections_unlogged :
    respStatus (chat_completions ⟨"", "", 120, "GPT-5-nano"⟩
      ⟨4, "delta", "tok4", 100, 0, 1, true⟩ ⟨"gpt-5-nano", false⟩ [0] 0
      ProviderOutcome.timeout).response = 429 ∧
    (chat_completions ⟨"", "", 120, "GPT-5-nano"⟩
      ⟨4, "delta", "tok4", 100, 0, 1, true⟩ ⟨"gpt-5-nano", false⟩ [0] 0
      ProviderOutcome.timeout).logs = [] ∧
    respStatus (chat_completions ⟨"", "", 120, "GPT-5-nano"⟩
      ⟨5, "theta", "tok5", 100, 100, 5, true⟩ ⟨"gpt-5-nano", false⟩ [] 0
      ProviderOutcome.timeout).response = 429 ∧
    (chat_completions ⟨"", "", 120, "GPT-5-nano"⟩
      ⟨5, "theta", "tok5", 100, 100, 5, true⟩ ⟨"gpt-5-nano", false⟩ [] 0
      ProviderOutcome.timeout).logs = [] := by
  decide

/-- C9 (amended): `GET /v1/usage/{username}` treats the username as a SQL
`ILIKE` pattern; for any username containing no wildcard character (`%` or
`_`) it returns the snapshot of the first team whose name equals the username
case-insensitively, and the empty object when no team's name matches. -/
theorem usage_endpoint_lookup (teams : List Team) (logs : List RequestLog)
    (username : String)
    (hw : ∀ c ∈ username.data, c ≠ '%' ∧ c ≠ '_') :
    get_usage teams logs username =
      (teams.find? (fun t => pyLower t.name = pyLower username)).map
        (snapshotOf logs) := by
  unfold get_usage
  have hpred : (fun t : Team => ilikeMatch t.name username) =
      (fun t : Team => decide (pyLower t.name = pyLower username)) := by
    funext t
    exact ilikeMatch_no_wildcard t.name username hw
  rw [hpred]
  rcases hf : teams.find? (fun t => decide (pyLower t.name = pyLower username))
    with _ | t <;> simp [hf]

/-- C9 (witness): looking up "ALPHA" finds the team named "Alpha" and returns
its snapshot; looking up "beta" finds no team and returns the empty object. -/
theorem usage_endpoint_lookup_instance :
    get_usage [⟨1, "Alpha", "tok", 100, 10, 5, true⟩] [] "ALPHA" =
      some (snapshotOf [] ⟨1, "Alpha", "tok", 100, 10, 5, true⟩) ∧
    get_usage [⟨1, "Alpha", "tok", 100, 10, 5, true⟩] [] "beta" = none := by
  constructor
  · rw [usage_endpoint_lookup _ _ _ (by decide)]
    rfl
  · rw [usage_endpoint_lookup _ _ _ (by decide)]
    rfl

/-- C9 (counterexample): the username "%" is interpreted as a wildcard
pattern: the endpoint returns the snapshot of a team named "alpha" even
though no team of name "%" exists (not even case-insensitively),
contradicting the claim that a snapshot is returned only for the team whose
name matches the username case-insensitively. -/
theorem usage_endpoint_wildcard :
    (get_usage [⟨1, "alpha", "tok", 100, 10, 5, true⟩] [] "%").isSome = true ∧
    pyLower "alpha" ≠ pyLower "%" :=
  ⟨rfl, by decide⟩

/-- C8 (amended): the forwarder's timeout is the fixed literal 120 seconds for
every configuration; the `provider_timeout` setting defaults to 120 but is not
consulted by `ProxyService.__init__`. -/
theorem forwarder_timeout_fixed (s : Settings) :
    (ProxyService.init s).timeout = 120 ∧ defaultSettings.provider_timeout = 120 :=
  ⟨rfl, rfl⟩

/-- C8 (counterexample): with `provider_timeout` configured to 60, the
forwarder still uses 120 seconds — the timeout it applies is not the
configured provider-timeout setting. -/
theorem forwarder_timeout_ignores_setting :
    (ProxyService.init { defaultSettings with provider_timeout := 60 }).timeout = 120 ∧
    ({ defaultSettings with provider_timeout := 60 } : Settings).provider_timeout = 60 ∧
    (ProxyService.init { defaultSettings with provider_timeout := 60 }).timeout ≠
      ({ defaultSettings with provider_timeout := 60 } : Settings).provider_timeout := by
  refine ⟨rfl, rfl, by decide⟩

end TokenRouter
